import Mathlib

/-!
# Verification of `generate_assessment.py` (RepoPack)

A shallow embedding of the assessment-generation pipeline:
the two image renderers, the docx composer (`create_docx`), the
package assembler (`make_github_folder`) and the git publisher
(`git_init_and_push`), together with theorems settling the claims
about the program.
-/

set_option maxRecDepth 100000

namespace RepoPack

/-! ## Document Composer (`create_docx`, lines 93-138)

The docx document is modelled as the ordered list of items added to it:
one heading, a sequence of paragraphs (each the exact string passed to
`doc.add_paragraph`), and two embedded pictures with a display width in
inches. -/

inductive DocxItem where
  | heading (text : String) (level : Nat)
  | para (text : String)
  | picture (path : String) (widthInches : Nat)
deriving DecidableEq, Repr

/-- Embedding of `create_docx` (source lines 93-138): the items added to the
document, in order, with every paragraph string verbatim from the source. -/
def create_docx (img1 img2 : String) : List DocxItem :=
  [DocxItem.heading "Generated Assessment Questions" 1,
   DocxItem.para "@title Central Middle — Derived Assessment",
   DocxItem.para "@description Two generated quantitative math questions similar to the base examples.",
   DocxItem.para "\n// Use this block for each question when adding Multiple Choice Questions (MCQ)",
   DocxItem.para "\n@question Each student at Riverside Prep chooses a uniform consisting of 1 shirt, 1 pair of pants, and 1 hat. The table shows the available options for each item. How many different complete uniforms are possible?",
   DocxItem.para "@instruction Select the number of possible uniform combinations from the options.",
   DocxItem.para "@difficulty easy",
   DocxItem.para "@Order 1",
   DocxItem.para "@option (A) 18",
   DocxItem.para "@option (B) 24",
   DocxItem.para "@@option (C) 36",
   DocxItem.para "@option (D) 48",
   DocxItem.para "@option (E) 72",
   DocxItem.para "@explanation ",
   DocxItem.para "There are 4 shirt choices, 3 pants choices, and 3 hat choices. Total combinations = 4 × 3 × 3 = 36.",
   DocxItem.para "@subject Quantitative Math",
   DocxItem.para "@unit Numbers and Operations",
   DocxItem.para "@topic Combinations / Counting",
   DocxItem.para "@plusmarks 1",
   DocxItem.picture img1 6,
   DocxItem.para "\n@question The top view of a rectangular box containing 8 identical tightly packed spherical balls arranged in two rows of four is shown. If each ball has radius $2$ cm, which of the following is closest to the dimensions (height × width × length), in centimeters, of the rectangular package?",
   DocxItem.para "@instruction Choose the correct dimensions from the options.",
   DocxItem.para "@difficulty moderate",
   DocxItem.para "@Order 2",
   DocxItem.para "@option (A) $4 \\times 8 \\times 16$",
   DocxItem.para "@option (B) $2 \\times 8 \\times 16$",
   DocxItem.para "@@option (C) $4 \\times 12 \\times 18$",
   DocxItem.para "@option (D) $6 \\times 8 \\times 16$",
   DocxItem.para "@option (E) $8 \\times 12 \\times 24$",
   DocxItem.para "@explanation ",
   DocxItem.para "Top view shows two rows and four columns of circles (diameter = 4 cm). Width (short side) = 2 rows × 4 cm = 8 cm. Length = 4 columns × 4 cm = 16 cm. Height must accommodate one layer of balls: diameter = 4 cm. So dimensions: $4 \\times 8 \\times 16$.",
   DocxItem.para "@subject Quantitative Math",
   DocxItem.para "@unit Geometry and Measurement",
   DocxItem.para "@topic Solid Figures / Coordinate Geometry",
   DocxItem.para "@plusmarks 1",
   DocxItem.picture img2 6]

/-! ## Package Assembler text content (`make_github_folder`, lines 152-192) -/

/-- The README.md content written at source line 153, verbatim. -/
def readme_text : String :=
  "# Generated Assessment Questions\n\nThis repository contains two generated quantitative math questions in the requested Question Output Format, plus images.\n"

/-- The QUESTIONS.md content written at source lines 155-192, verbatim: the
Python adjacent string literals are rendered as one concatenation. -/
def questions_md : String :=
  "@title Central Middle — Derived Assessment\n" ++
  "@description Two generated quantitative math questions similar to the base examples.\n\n" ++
  "// Question 1\n" ++
  "@question Each student at Riverside Prep chooses a uniform consisting of 1 shirt, 1 pair of pants, and 1 hat. The table shows the available options for each item. How many different complete uniforms are possible?\n" ++
  "@instruction Select the number of possible uniform combinations from the options.\n" ++
  "@difficulty easy\n" ++
  "@Order 1\n" ++
  "@option (A) 18\n" ++
  "@option (B) 24\n" ++
  "@@option (C) 36\n" ++
  "@option (D) 48\n" ++
  "@option (E) 72\n" ++
  "@explanation \n" ++
  "There are 4 shirt choices, 3 pants choices, and 3 hat choices. Total combinations = 4 × 3 × 3 = 36.\n" ++
  "@subject Quantitative Math\n" ++
  "@unit Numbers and Operations\n" ++
  "@topic Combinations / Counting\n" ++
  "@plusmarks 1\n\n" ++
  "// Question 2\n" ++
  "@question The top view of a rectangular box containing 8 identical tightly packed spherical balls arranged in two rows of four is shown. If each ball has radius $2$ cm, which of the following is closest to the dimensions (height × width × length), in centimeters, of the rectangular package?\n" ++
  "@instruction Choose the correct dimensions from the options.\n" ++
  "@difficulty moderate\n" ++
  "@Order 2\n" ++
  "@option (A) $4 \\times 8 \\times 16$\n" ++
  "@option (B) $2 \\times 8 \\times 16$\n" ++
  "@@option (C) $4 \\times 12 \\times 18$\n" ++
  "@option (D) $6 \\times 8 \\times 16$\n" ++
  "@option (E) $8 \\times 12 \\times 24$\n" ++
  "@explanation \n" ++
  "Top view shows two rows and four columns of circles (diameter = 4 cm). Width (short side) = 2 rows × 4 cm = 8 cm. Length = 4 columns × 4 cm = 16 cm. Height must accommodate one layer of balls: diameter = 4 cm. So dimensions: $4 \\times 8 \\times 16$.\n" ++
  "@subject Quantitative Math\n" ++
  "@unit Geometry and Measurement\n" ++
  "@topic Solid Figures / Coordinate Geometry\n" ++
  "@plusmarks 1\n"

/-! ## Line-level view of both outputs -/

/-- Split a string into its newline-separated lines. -/
def lines_of (s : String) : List String :=
  (s.data.splitOn (Char.ofNat 10)).map fun cs => String.mk cs

/-- Boolean string-prefix test (on the underlying character lists). -/
def strStarts (s pre : String) : Bool := pre.data.isPrefixOf s.data

/-- The paragraph texts of a composed document, in order (headings and
pictures are not text paragraphs). -/
def docx_paragraph_texts (items : List DocxItem) : List String :=
  items.filterMap fun it =>
    match it with
    | DocxItem.para t => some t
    | _ => none

/-- All text lines of the composed document: each paragraph split at the
newlines it embeds (a paragraph written as "\n@question ..." displays as a
blank line followed by the tagged line). -/
def docx_lines (items : List DocxItem) : List String :=
  ((docx_paragraph_texts items).map fun t => lines_of t).flatten

/-- Content lines: the lines that carry question-record content, i.e.
everything except blank lines and the "//" comment lines. -/
def contentLines (ls : List String) : List String :=
  ls.filter fun l => !(l == "") && !(strStarts l "//")

/-- Does a line begin a question record? -/
def isQStart (l : String) : Bool := strStarts l "@question "

/-- Group lines into question blocks: each block runs from a line starting
with "@question " up to (excluding) the next such line; lines before the
first question are discarded. -/
def questionBlocks (ls : List String) : List (List String) :=
  (ls.foldr
    (fun l (st : List String × List (List String)) =>
      if isQStart l then ([], (l :: st.1) :: st.2) else (l :: st.1, st.2))
    ([], [])).2

/-- The option lines of a block: lines marked with the single or the doubled
option tag. -/
def option_lines (b : List String) : List String :=
  b.filter fun l => strStarts l "@option " || strStarts l "@@option "

/-- The option lines of a block carrying the doubled correct-marker. -/
def correct_option_lines (b : List String) : List String :=
  b.filter fun l => strStarts l "@@option "

/-- The letter label of an option line, e.g. "(A)": the second
space-separated field. -/
def optionLabel (l : String) : Option String :=
  ((l.data.splitOn (Char.ofNat 32)).map fun cs => String.mk cs).get? 1

/-- A well-formed option block: exactly 5 option lines labeled (A)-(E) in
order, exactly one doubled-marker line, and exactly four single-marker
lines. -/
def optionBlockOk (b : List String) : Bool :=
  (option_lines b).length == 5 &&
  (correct_option_lines b).length == 1 &&
  ((option_lines b).filter fun l => strStarts l "@option ").length == 4 &&
  ((option_lines b).filterMap optionLabel == ["(A)", "(B)", "(C)", "(D)", "(E)"])

/-- The question blocks of the composed document. -/
def docxBlocks (img1 img2 : String) : List (List String) :=
  questionBlocks (contentLines (docx_lines (create_docx img1 img2)))

/-- The question blocks of the QUESTIONS.md transcription. -/
def mdBlocks : List (List String) :=
  questionBlocks (contentLines (lines_of questions_md))

/-- C1: in both the composed document and the markdown transcription there
are exactly two question blocks, and every one of the four blocks has
exactly 5 option lines labeled (A) through (E), exactly one of them with the
doubled marker and the other four with the single marker. -/
theorem c1_option_blocks (img1 img2 : String) :
    (docxBlocks img1 img2).length = 2 ∧ mdBlocks.length = 2 ∧
    (docxBlocks img1 img2).all optionBlockOk = true ∧
    mdBlocks.all optionBlockOk = true := by
  refine ⟨rfl, by decide, rfl, by decide⟩

/-- C2: the content lines (all tagged lines and explanation bodies, blank
and comment lines removed) of the markdown transcription are identical,
line for line and in the same order, to those of the composed document —
title, description and both full question records included. -/
theorem c2_md_matches_docx (img1 img2 : String) :
    contentLines (docx_lines (create_docx img1 img2)) =
      contentLines (lines_of questions_md) := by
  rfl

/-- Does `pat` occur as a contiguous substring of `s`? -/
def containsSub (s pat : String) : Bool :=
  s.data.tails.any fun t => pat.data.isPrefixOf t

/-- C3: in both outputs, question 2 marks option (C) "$4 \times 12 \times 18$"
as correct, while the explanation body derives "$4 \times 8 \times 16$" —
the literal text of option (A) — and never mentions the marked dimensions;
the mismatch is emitted identically in the document and the markdown. -/
theorem c3_marked_option_contradicts_explanation (img1 img2 : String) :
    (docxBlocks img1 img2).get? 1 = mdBlocks.get? 1 ∧
    (mdBlocks.map correct_option_lines).get? 1 =
      some ["@@option (C) $4 \\times 12 \\times 18$"] ∧
    ((mdBlocks.map option_lines).get? 1).bind (fun ol => ol.get? 0) =
      some "@option (A) $4 \\times 8 \\times 16$" ∧
    Option.any (fun e => containsSub e "$4 \\times 8 \\times 16$")
      ((mdBlocks.get? 1).bind fun b => b.get? 10) = true ∧
    Option.any (fun e => containsSub e "$4 \\times 12 \\times 18$")
      ((mdBlocks.get? 1).bind fun b => b.get? 10) = false := by
  refine ⟨rfl, by decide, by decide, by decide, by decide⟩

/-! ## Image Renderer B (`make_packed_spheres_image`, lines 65-91)

The renderer is modelled by the geometry it computes: the canvas size in
pixels (`width_px`, `height_px`), the circle radius in pixels (`r_px`) and
the list of circle centers, in the order the two nested loops emit them.
Python `int()` truncates toward zero; every truncated quantity here is
nonnegative, where truncation is the floor. -/

/-- `scale = 30  # pixels per cm approx` (source line 70). -/
def sphere_scale : ℚ := 30

structure SpheresImage where
  width_px : ℤ
  height_px : ℤ
  r_px : ℚ
  centers : List (ℚ × ℚ)

/-- Embedding of `make_packed_spheres_image` (source lines 65-91):
`diameter = 2 * radius_cm`, `r_px = radius_cm * scale`,
`width_px = int(cols * diameter * scale)`,
`height_px = int(rows * diameter * scale)`, and one circle centered at
`(j * diameter * scale + r_px, i * diameter * scale + r_px)` for each
`i < rows`, `j < cols`. -/
def make_packed_spheres_image (rows cols : ℕ) (radius_cm : ℚ) : SpheresImage :=
  let diameter : ℚ := 2 * radius_cm
  let r_px : ℚ := radius_cm * sphere_scale
  { width_px := Int.floor ((cols : ℚ) * diameter * sphere_scale),
    height_px := Int.floor ((rows : ℚ) * diameter * sphere_scale),
    r_px := r_px,
    centers :=
      ((List.range rows).map (fun i : ℕ =>
        (List.range cols).map (fun j : ℕ =>
          ((((j : ℕ) : ℚ) * diameter * sphere_scale) + r_px,
           (((i : ℕ) : ℚ) * diameter * sphere_scale) + r_px)))).flatten }

/-- C5 counterexample: with rows = 2, cols = 3, radius = 1/32 the computed
canvas is 5 × 3 pixels, which is NOT proportional to
cols·diameter × rows·diameter (that would require the ratio 3 : 2): the
`int()` truncation breaks exact proportionality for fractional pixel
sizes. -/
theorem c5_counterexample :
    ¬ ∃ k : ℚ, 0 < k ∧
      ((make_packed_spheres_image 2 3 (1/32)).width_px : ℚ)
        = k * ((3 : ℚ) * (2 * (1/32))) ∧
      ((make_packed_spheres_image 2 3 (1/32)).height_px : ℚ)
        = k * ((2 : ℚ) * (2 * (1/32))) := by
  rintro ⟨k, hk, h1, h2⟩
  have hw : (make_packed_spheres_image 2 3 (1/32)).width_px = 5 := by
    show Int.floor ((3 : ℚ) * (2 * (1/32)) * sphere_scale) = 5
    norm_num [sphere_scale]
  have hh : (make_packed_spheres_image 2 3 (1/32)).height_px = 3 := by
    show Int.floor ((2 : ℚ) * (2 * (1/32)) * sphere_scale) = 3
    norm_num [sphere_scale]
  rw [hw] at h1
  rw [hh] at h2
  push_cast at h1 h2
  linarith

/-- C5 (amended): for every row count, column count and positive radius the
centers form the regular grid with center-to-center spacing one diameter
(`2 * r_px` pixels) along both axes, and the computed canvas dimensions are
the integer truncations of `cols*diameter*scale` and `rows*diameter*scale`
(so proportionality holds whenever those products are whole, and can fail
otherwise); in particular rows = 2, cols = 4, radius = 2 gives a 480 × 240
canvas, a width-to-height ratio of exactly 2 : 1. -/
theorem c5_amended_grid_and_canvas :
    (∀ (rows cols : ℕ) (radius_cm : ℚ), 0 < radius_cm →
      (∀ i j : ℕ, i < rows → j < cols →
        (((j : ℕ) : ℚ) * (2 * radius_cm) * sphere_scale + radius_cm * sphere_scale,
         ((i : ℕ) : ℚ) * (2 * radius_cm) * sphere_scale + radius_cm * sphere_scale)
          ∈ (make_packed_spheres_image rows cols radius_cm).centers) ∧
      (make_packed_spheres_image rows cols radius_cm).centers.length = rows * cols ∧
      (∀ i j : ℕ,
        (((j + 1 : ℕ) : ℚ) * (2 * radius_cm) * sphere_scale + radius_cm * sphere_scale)
          - (((j : ℕ) : ℚ) * (2 * radius_cm) * sphere_scale + radius_cm * sphere_scale)
          = 2 * (make_packed_spheres_image rows cols radius_cm).r_px ∧
        (((i + 1 : ℕ) : ℚ) * (2 * radius_cm) * sphere_scale + radius_cm * sphere_scale)
          - (((i : ℕ) : ℚ) * (2 * radius_cm) * sphere_scale + radius_cm * sphere_scale)
          = 2 * (make_packed_spheres_image rows cols radius_cm).r_px) ∧
      (make_packed_spheres_image rows cols radius_cm).width_px
        = Int.floor ((cols : ℚ) * (2 * radius_cm) * sphere_scale) ∧
      (make_packed_spheres_image rows cols radius_cm).height_px
        = Int.floor ((rows : ℚ) * (2 * radius_cm) * sphere_scale)) ∧
    (make_packed_spheres_image 2 4 2).width_px = 480 ∧
    (make_packed_spheres_image 2 4 2).height_px = 240 ∧
    (make_packed_spheres_image 2 4 2).width_px
      = 2 * (make_packed_spheres_image 2 4 2).height_px := by
  refine ⟨fun rows cols radius_cm _hr => ⟨?_, ?_, ?_, rfl, rfl⟩, ?_, ?_, ?_⟩
  · intro i j hi hj
    refine List.mem_flatten.mpr
      ⟨(List.range cols).map (fun j : ℕ =>
          (((j : ℕ) : ℚ) * (2 * radius_cm) * sphere_scale + radius_cm * sphere_scale,
           ((i : ℕ) : ℚ) * (2 * radius_cm) * sphere_scale + radius_cm * sphere_scale)),
        ?_, ?_⟩
    · exact List.mem_map_of_mem
        (fun i : ℕ => (List.range cols).map (fun j : ℕ =>
          (((j : ℕ) : ℚ) * (2 * radius_cm) * sphere_scale + radius_cm * sphere_scale,
           ((i : ℕ) : ℚ) * (2 * radius_cm) * sphere_scale + radius_cm * sphere_scale)))
        (List.mem_range.mpr hi)
    · exact List.mem_map_of_mem
        (fun j : ℕ =>
          (((j : ℕ) : ℚ) * (2 * radius_cm) * sphere_scale + radius_cm * sphere_scale,
           ((i : ℕ) : ℚ) * (2 * radius_cm) * sphere_scale + radius_cm * sphere_scale))
        (List.mem_range.mpr hj)
  · simp only [make_packed_spheres_image]
    simp [List.length_flatten, List.map_map, Function.comp_def, Nat.mul_comm]
  · intro i j
    constructor
    · show _ = 2 * (radius_cm * sphere_scale)
      push_cast
      ring
    · show _ = 2 * (radius_cm * sphere_scale)
      push_cast
      ring
  · show Int.floor ((4 : ℚ) * (2 * 2) * sphere_scale) = 480
    norm_num [sphere_scale]
  · show Int.floor ((2 : ℚ) * (2 * 2) * sphere_scale) = 240
    norm_num [sphere_scale]
  · show Int.floor ((4 : ℚ) * (2 * 2) * sphere_scale)
      = 2 * Int.floor ((2 : ℚ) * (2 * 2) * sphere_scale)
    norm_num [sphere_scale]

/-- Witness for `c5_amended_grid_and_canvas`: at rows = cols = 1,
radius = 1, the single center lies in the computed center list. -/
theorem c5_amended_grid_and_canvas_witness :
    (((0 : ℕ) : ℚ) * (2 * 1) * sphere_scale + 1 * sphere_scale,
     ((0 : ℕ) : ℚ) * (2 * 1) * sphere_scale + 1 * sphere_scale)
      ∈ (make_packed_spheres_image 1 1 1).centers :=
  (c5_amended_grid_and_canvas.1 1 1 1 (by norm_num)).1 0 0
    (by norm_num) (by norm_num)

/-! ## Image Renderer A (`make_uniform_image`, lines 29-63)

The renderer is modelled by the sequence of drawing operations it performs:
text labels (each carrying the font in effect, `none` when the font failed
to load), bordered rectangles, and the final image save. -/

inductive DrawOp where
  | text (x y : ℤ) (s : String) (font : Option Unit)
  | rect (x0 y0 x1 y1 : ℤ)
  | save (path : String)
deriving DecidableEq, Repr

/-- `shirts = ["Tan", "Red", "White", "Yellow"]` (source line 40). -/
def shirts : List String := ["Tan", "Red", "White", "Yellow"]

/-- `pants = ["Black", "Khaki", "Navy"]` (source line 41). -/
def pants : List String := ["Black", "Khaki", "Navy"]

/-- `hats = ["Blue", "Green", "Brown"]` (source line 42). -/
def hats : List String := ["Blue", "Green", "Brown"]

/-- One column loop of `make_uniform_image` (source lines 45-60): starting
at `y = 70`, for each item draw a 200 × 30 box at `(x, y)` and its label at
`(x + 5, y + 6)`, then advance `y` by 40. -/
def draw_column (x : ℤ) (items : List String) (font : Option Unit) : List DrawOp :=
  (items.foldl
    (fun (st : List DrawOp × ℤ) it =>
      (st.1 ++ [DrawOp.rect x st.2 (x + 200) (st.2 + 30),
                DrawOp.text (x + 5) (st.2 + 6) it font], st.2 + 40))
    ([], 70)).1

/-- Embedding of `make_uniform_image` (source lines 29-63). `fontLoads`
says whether `ImageFont.load_default()` succeeds; the `try`/`except` at
lines 33-36 turns a load failure into `font = None`, and the drawing
proceeds either way: headers, the three columns, and exactly one save. -/
def make_uniform_image (fontLoads : Bool) (path : String) : List DrawOp :=
  let font : Option Unit := if fontLoads then some () else none
  [DrawOp.text 10 10 "Available Options" font,
   DrawOp.text 20 40 "Shirts:" font] ++
  draw_column 20 shirts font ++
  draw_column 260 pants font ++
  draw_column 500 hats font ++
  [DrawOp.save path]

def isSaveOp : DrawOp → Bool
  | DrawOp.save _ => true
  | _ => false

def isTextOp : DrawOp → Bool
  | DrawOp.text _ _ _ _ => true
  | _ => false

def isRectOp : DrawOp → Bool
  | DrawOp.rect _ _ _ _ => true
  | _ => false

/-- Replace the font of a text operation by `none`. -/
def stripFont : DrawOp → DrawOp
  | DrawOp.text x y s _ => DrawOp.text x y s none
  | op => op

/-- C10: when the font fails to load, `make_uniform_image` still completes:
it performs exactly the same operation sequence as the successful-font run
with every text drawn fontless — all 12 text labels, all 10 boxes — and
writes exactly one image file, at the given path, as its final action. The
failure is absorbed locally: the function is total and returns normally. -/
theorem c10_font_failure_is_local (path : String) :
    ((make_uniform_image false path).filter isSaveOp).length = 1 ∧
    (make_uniform_image false path).getLast? = some (DrawOp.save path) ∧
    ((make_uniform_image false path).filter isTextOp).length = 12 ∧
    ((make_uniform_image false path).filter isRectOp).length = 10 ∧
    make_uniform_image false path = (make_uniform_image true path).map stripFont := by
  exact ⟨rfl, rfl, rfl, rfl, rfl⟩

/-! ## Filesystem model for the Package Assembler (`make_github_folder`)

The filesystem is a finite association list from paths (component lists) to
file data. Directories are implicit: a directory exists exactly when some
file lies at or beneath its path, which matches every use the program makes
of `Path.exists` on its target paths. File data is either opaque bytes or a
zip archive holding entries by archive name. -/

abbrev FPath := List String

inductive FData where
  | bytes (content : String)
  | zipArchive (entries : List (FPath × FData))

structure FState where
  files : List (FPath × FData)

/-- `path.exists()` for a file path. -/
def fileEx (fs : FState) (p : FPath) : Bool :=
  fs.files.any fun e => e.1 == p

/-- `path.exists()` for a directory path: some file lies at or beneath it. -/
def dirEx (fs : FState) (p : FPath) : Bool :=
  fs.files.any fun e => p.isPrefixOf e.1

/-- `shutil.rmtree(p)`: remove every file at or beneath `p`. -/
def rmtreeF (fs : FState) (p : FPath) : FState :=
  ⟨fs.files.filter fun e => !(p.isPrefixOf e.1)⟩

/-- Write (create or overwrite) the file at `p`. -/
def writeF (fs : FState) (p : FPath) (d : FData) : FState :=
  ⟨(p, d) :: fs.files.filter fun e => !(e.1 == p)⟩

/-- Read the file at `p`, if present. -/
def readF (fs : FState) (p : FPath) : Option FData :=
  (fs.files.find? fun e => e.1 == p).map fun e => e.2

/-- `p.unlink()`: remove the file at `p`. -/
def unlinkF (fs : FState) (p : FPath) : FState :=
  ⟨fs.files.filter fun e => !(e.1 == p)⟩

/-- `shutil.copy(src, dst)`: read `src` and write its data to `dst`;
fails when `src` is missing. -/
def copyF (fs : FState) (src dst : FPath) : Option FState :=
  (readF fs src).map fun d => writeF fs dst d

/-- The entries the `zipfile` loop produces (source lines 201-205): every
file strictly beneath `dir`, under its path relative to `dir`
(`full.relative_to(repo_dir)`), with its data. -/
def zipEntriesF (fs : FState) (dir : FPath) : List (FPath × FData) :=
  (fs.files.filter fun e => dir.isPrefixOf e.1 && !(e.1 == dir)).map
    fun e => (e.1.drop dir.length, e.2)

/-- `Path.name`: the final path component. -/
def fname (p : FPath) : String := p.getLastD ""

/-- Result of `make_github_folder`: the final filesystem, the returned
`repo_dir` and `zip_path`, and the entry list of the created archive. -/
structure MGFResult where
  fs : FState
  repo_dir : FPath
  zip_path : FPath
  entries : List (FPath × FData)

/-- Embedding of `make_github_folder` (source lines 140-207): delete any
pre-existing `github_repo` directory, copy the two images into `images/`,
write `README.md` and `QUESTIONS.md`, copy the docx, delete any
pre-existing `github_repo.zip`, and zip every file beneath the directory
under its relative name. The directory-creation calls (`mkdir`) are no-ops
in this model, since directories are implicit. -/
def make_github_folder (fs0 : FState) (base : FPath) (img1 img2 docx_path : FPath) :
    Option MGFResult :=
  let repo_dir := base ++ ["github_repo"]
  let fs1 := if dirEx fs0 repo_dir then rmtreeF fs0 repo_dir else fs0
  let images_dir := repo_dir ++ ["images"]
  (copyF fs1 img1 (images_dir ++ [fname img1])).bind fun fs2 =>
  (copyF fs2 img2 (images_dir ++ [fname img2])).bind fun fs3 =>
  let fs4 := writeF fs3 (repo_dir ++ ["README.md"]) (FData.bytes readme_text)
  let fs5 := writeF fs4 (repo_dir ++ ["QUESTIONS.md"]) (FData.bytes questions_md)
  (copyF fs5 docx_path (repo_dir ++ [fname docx_path])).map fun fs6 =>
  let zip_path := base ++ ["github_repo.zip"]
  let fs7 := if fileEx fs6 zip_path then unlinkF fs6 zip_path else fs6
  let entries := zipEntriesF fs7 repo_dir
  { fs := writeF fs7 zip_path (FData.zipArchive entries),
    repo_dir := repo_dir, zip_path := zip_path, entries := entries }

/-- The image, image and docx paths `main` passes in (source lines 242-244). -/
def main_img1 (base : FPath) : FPath := base ++ ["uniform_table.png"]

def main_img2 (base : FPath) : FPath := base ++ ["rect_package_topview_8.png"]

def main_docx (base : FPath) : FPath := base ++ ["generated_assessment.docx"]

/-! ### List and path lemmas -/

theorem find?_filter_sub {α : Type} (l : List α) (f g : α → Bool)
    (h : ∀ a, f a = true → g a = true) :
    (l.filter g).find? f = l.find? f := by
  induction l with
  | nil => rfl
  | cons a t ih =>
    by_cases hf : f a = true
    · rw [List.filter_cons, if_pos (h a hf), List.find?_cons_of_pos _ hf,
        List.find?_cons_of_pos _ hf]
    · by_cases hg : g a = true
      · rw [List.filter_cons, if_pos hg, List.find?_cons_of_neg _ hf,
          List.find?_cons_of_neg _ hf, ih]
      · rw [List.filter_cons, if_neg hg, List.find?_cons_of_neg _ hf, ih]

theorem filter_filter_sub {α : Type} (l : List α) (f g : α → Bool)
    (h : ∀ a, f a = true → g a = true) :
    (l.filter g).filter f = l.filter f := by
  induction l with
  | nil => rfl
  | cons a t ih =>
    by_cases hf : f a = true
    · rw [List.filter_cons, if_pos (h a hf), List.filter_cons, if_pos hf,
        List.filter_cons, if_pos hf, ih]
    · by_cases hg : g a = true
      · rw [List.filter_cons, if_pos hg, List.filter_cons, if_neg hf,
          List.filter_cons, if_neg hf, ih]
      · rw [List.filter_cons, if_neg hg, List.filter_cons, if_neg hf, ih]

theorem append_isPrefixOf_eq (base t1 t2 : FPath) :
    (base ++ t1).isPrefixOf (base ++ t2) = t1.isPrefixOf t2 := by
  rw [Bool.eq_iff_iff]
  simp [List.isPrefixOf_iff_prefix, List.prefix_append_right_inj]

/-! ### Behavior of the filesystem operations -/

theorem readF_writeF_self (fs : FState) (p : FPath) (d : FData) :
    readF (writeF fs p d) p = some d := by
  simp [readF, writeF]

theorem readF_writeF_ne (fs : FState) (p q : FPath) (d : FData) (h : q ≠ p) :
    readF (writeF fs p d) q = readF fs q := by
  simp only [readF, writeF]
  rw [List.find?_cons_of_neg, find?_filter_sub]
  · intro a ha
    have ha' : a.1 = q := by simpa using ha
    simpa [ha'] using h
  · simpa using fun hc => h hc.symm

theorem readF_unlinkF_ne (fs : FState) (p q : FPath) (h : q ≠ p) :
    readF (unlinkF fs p) q = readF fs q := by
  simp only [readF, unlinkF]
  rw [find?_filter_sub]
  intro a ha
  have ha' : a.1 = q := by simpa using ha
  simpa [ha'] using h

theorem readF_rmtreeF (fs : FState) (dir q : FPath)
    (h : dir.isPrefixOf q = false) :
    readF (rmtreeF fs dir) q = readF fs q := by
  simp only [readF, rmtreeF]
  rw [find?_filter_sub]
  intro a ha
  have ha' : a.1 = q := by simpa using ha
  simp [ha', h]

theorem clean_rmtreeF (fs : FState) (dir : FPath) :
    ∀ e ∈ (rmtreeF fs dir).files, dir.isPrefixOf e.1 = false := by
  intro e he
  have := (List.mem_filter.mp he).2
  simpa using this

theorem clean_of_dirEx_false (fs : FState) (dir : FPath)
    (h : dirEx fs dir = false) :
    ∀ e ∈ fs.files, dir.isPrefixOf e.1 = false := by
  intro e he
  by_contra hc
  have hc' : dir.isPrefixOf e.1 = true := by
    cases hx : dir.isPrefixOf e.1 with
    | true => rfl
    | false => exact absurd hx hc
  have : dirEx fs dir = true := by
    simp only [dirEx, List.any_eq_true]
    exact ⟨e, he, hc'⟩
  rw [this] at h
  cases h

theorem readF_none_of_clean (fs : FState) (dir q : FPath)
    (hc : ∀ e ∈ fs.files, dir.isPrefixOf e.1 = false)
    (hq : dir.isPrefixOf q = true) :
    readF fs q = none := by
  have hf : fs.files.find? (fun e => e.1 == q) = none := by
    rw [List.find?_eq_none]
    intro e he
    have ha' : ¬ e.1 = q := by
      intro hx
      have hce := hc e he
      rw [hx] at hce
      rw [hce] at hq
      cases hq
    simpa using ha'
  rw [readF, hf]
  rfl

theorem clean_writeF_out (fs : FState) (dir p : FPath) (d : FData)
    (hc : ∀ e ∈ fs.files, dir.isPrefixOf e.1 = false)
    (hp : dir.isPrefixOf p = false) :
    ∀ e ∈ (writeF fs p d).files, dir.isPrefixOf e.1 = false := by
  intro e he
  rcases List.mem_cons.mp he with h | h
  · rw [h]
    exact hp
  · exact hc e (List.mem_filter.mp h).1

theorem zipEntriesF_writeF_fresh (fs : FState) (dir p : FPath) (d : FData)
    (hp : dir.isPrefixOf p = true) (hne : (p == dir) = false)
    (hfresh : readF fs p = none) :
    zipEntriesF (writeF fs p d) dir
      = (p.drop dir.length, d) :: zipEntriesF fs dir := by
  have hfind : fs.files.find? (fun e => e.1 == p) = none := by
    cases hx : fs.files.find? (fun e => e.1 == p) with
    | none => rfl
    | some v => rw [readF, hx] at hfresh; cases hfresh
  have hfil : (fs.files.filter fun e => !(e.1 == p)) = fs.files := by
    rw [List.filter_eq_self]
    intro e he
    rw [List.find?_eq_none] at hfind
    simpa using hfind e he
  simp only [zipEntriesF, writeF, hfil]
  rw [List.filter_cons, if_pos (by simp [hp, hne]), List.map_cons]

theorem zipEntriesF_unlinkF_out (fs : FState) (dir p : FPath)
    (hp : dir.isPrefixOf p = false) :
    zipEntriesF (unlinkF fs p) dir = zipEntriesF fs dir := by
  simp only [zipEntriesF, unlinkF]
  rw [filter_filter_sub]
  intro a ha
  have h1 : dir.isPrefixOf a.1 = true := by
    cases hx : dir.isPrefixOf a.1 with
    | true => rfl
    | false => rw [hx] at ha; simp at ha
  have : ¬ a.1 = p := by
    intro hx
    rw [hx] at h1
    rw [h1] at hp
    cases hp
  simpa using this

theorem zipEntriesF_of_clean (fs : FState) (dir : FPath)
    (hc : ∀ e ∈ fs.files, dir.isPrefixOf e.1 = false) :
    zipEntriesF fs dir = [] := by
  simp only [zipEntriesF, List.map_eq_nil_iff, List.filter_eq_nil_iff]
  intro e he
  simp [hc e he]

theorem isPrefixOf_append_self (l t : FPath) : l.isPrefixOf (l ++ t) = true := by
  rw [Bool.eq_iff_iff]
  simp [List.isPrefixOf_iff_prefix]

theorem append_ne_append {base : FPath} {t1 t2 : FPath} (h : t1 ≠ t2) :
    base ++ t1 ≠ base ++ t2 :=
  fun hc => h (List.append_cancel_left hc)

theorem fname_append (l : FPath) (a : String) : fname (l ++ [a]) = a := by
  simp [fname]

/-- Full characterization of a `make_github_folder` run on the paths `main`
passes in, over an arbitrary prior filesystem in which the two images and
the docx exist: the run succeeds, returns the fixed directory and archive
paths, the archive entries are exactly the five freshly generated files
under their relative names, the archive is written at the archive path, and
a path beneath the package directory is readable afterward exactly when it
is one of those five entries (with the fresh data). -/
theorem mgf_run (fs0 : FState) (base : FPath) (d1 d2 dd : FData)
    (h1 : readF fs0 (main_img1 base) = some d1)
    (h2 : readF fs0 (main_img2 base) = some d2)
    (hd : readF fs0 (main_docx base) = some dd) :
    ∃ r : MGFResult,
      make_github_folder fs0 base (main_img1 base) (main_img2 base) (main_docx base)
        = some r ∧
      r.repo_dir = base ++ ["github_repo"] ∧
      r.zip_path = base ++ ["github_repo.zip"] ∧
      r.entries = [(["generated_assessment.docx"], dd),
                   (["QUESTIONS.md"], FData.bytes questions_md),
                   (["README.md"], FData.bytes readme_text),
                   (["images", "rect_package_topview_8.png"], d2),
                   (["images", "uniform_table.png"], d1)] ∧
      readF r.fs r.zip_path = some (FData.zipArchive r.entries) ∧
      (∀ q : FPath, readF r.fs (r.repo_dir ++ q)
        = (r.entries.find? fun e => e.1 == q).map fun e => e.2) := by
  -- the five destination paths, in normal form
  have hassoc1 : base ++ ["github_repo", "images", "uniform_table.png"]
      = (base ++ ["github_repo"]) ++ ["images", "uniform_table.png"] := by simp
  have hassoc2 : base ++ ["github_repo", "images", "rect_package_topview_8.png"]
      = (base ++ ["github_repo"]) ++ ["images", "rect_package_topview_8.png"] := by simp
  have hassoc3 : base ++ ["github_repo", "README.md"]
      = (base ++ ["github_repo"]) ++ ["README.md"] := by simp
  have hassoc4 : base ++ ["github_repo", "QUESTIONS.md"]
      = (base ++ ["github_repo"]) ++ ["QUESTIONS.md"] := by simp
  have hassoc5 : base ++ ["github_repo", "generated_assessment.docx"]
      = (base ++ ["github_repo"]) ++ ["generated_assessment.docx"] := by simp
  -- the package directory is not an ancestor of any of the three sources
  have pf1 : (base ++ ["github_repo"]).isPrefixOf (main_img1 base) = false := by
    simp only [main_img1, append_isPrefixOf_eq]
    decide
  have pf2 : (base ++ ["github_repo"]).isPrefixOf (main_img2 base) = false := by
    simp only [main_img2, append_isPrefixOf_eq]
    decide
  have pfd : (base ++ ["github_repo"]).isPrefixOf (main_docx base) = false := by
    simp only [main_docx, append_isPrefixOf_eq]
    decide
  have pfz : (base ++ ["github_repo"]).isPrefixOf (base ++ ["github_repo.zip"])
      = false := by
    rw [append_isPrefixOf_eq]
    decide
  -- obtain the state after the rmtree step, with its clean-slate invariant
  obtain ⟨fs1, hfs1eq, hclean1, hr1, hr2, hrd⟩ :
      ∃ fs1,
        (if dirEx fs0 (base ++ ["github_repo"]) = true
          then rmtreeF fs0 (base ++ ["github_repo"]) else fs0) = fs1 ∧
        (∀ e ∈ fs1.files, (base ++ ["github_repo"]).isPrefixOf e.1 = false) ∧
        readF fs1 (main_img1 base) = some d1 ∧
        readF fs1 (main_img2 base) = some d2 ∧
        readF fs1 (main_docx base) = some dd := by
    by_cases hdir : dirEx fs0 (base ++ ["github_repo"]) = true
    · refine ⟨rmtreeF fs0 (base ++ ["github_repo"]), by simp [hdir],
        clean_rmtreeF fs0 _, ?_, ?_, ?_⟩
      · rw [readF_rmtreeF fs0 _ _ pf1]; exact h1
      · rw [readF_rmtreeF fs0 _ _ pf2]; exact h2
      · rw [readF_rmtreeF fs0 _ _ pfd]; exact hd
    · exact ⟨fs0, by simp [hdir],
        clean_of_dirEx_false fs0 _ (Bool.eq_false_iff.mpr hdir), h1, h2, hd⟩
  -- name the successive filesystem states after each write
  set A1 := writeF fs1 (base ++ ["github_repo", "images", "uniform_table.png"]) d1
    with hA1
  set A2 := writeF A1 (base ++ ["github_repo", "images", "rect_package_topview_8.png"]) d2
    with hA2
  set A3 := writeF A2 (base ++ ["github_repo", "README.md"]) (FData.bytes readme_text)
    with hA3
  set A4 := writeF A3 (base ++ ["github_repo", "QUESTIONS.md"]) (FData.bytes questions_md)
    with hA4
  set A5 := writeF A4 (base ++ ["github_repo", "generated_assessment.docx"]) dd
    with hA5
  -- sources are untouched by the writes (all destination paths differ)
  have hr2' : readF A1 (main_img2 base) = some d2 := by
    rw [hA1, readF_writeF_ne _ _ _ _
      (by simp only [main_img2]; exact append_ne_append (by decide))]
    exact hr2
  have hrd' : readF A4 (main_docx base) = some dd := by
    rw [hA4, readF_writeF_ne _ _ _ _
      (by simp only [main_docx]; exact append_ne_append (by decide))]
    rw [hA3, readF_writeF_ne _ _ _ _
      (by simp only [main_docx]; exact append_ne_append (by decide))]
    rw [hA2, readF_writeF_ne _ _ _ _
      (by simp only [main_docx]; exact append_ne_append (by decide))]
    rw [hA1, readF_writeF_ne _ _ _ _
      (by simp only [main_docx]; exact append_ne_append (by decide))]
    exact hrd
  -- freshness of each destination path at the moment it is written
  have fr1 : readF fs1 (base ++ ["github_repo", "images", "uniform_table.png"])
      = none := by
    refine readF_none_of_clean fs1 _ _ hclean1 ?_
    rw [hassoc1]; exact isPrefixOf_append_self _ _
  have fr2 : readF A1 (base ++ ["github_repo", "images", "rect_package_topview_8.png"])
      = none := by
    rw [hA1, readF_writeF_ne _ _ _ _ (append_ne_append (by decide))]
    refine readF_none_of_clean fs1 _ _ hclean1 ?_
    rw [hassoc2]; exact isPrefixOf_append_self _ _
  have fr3 : readF A2 (base ++ ["github_repo", "README.md"]) = none := by
    rw [hA2, readF_writeF_ne _ _ _ _ (append_ne_append (by decide))]
    rw [hA1, readF_writeF_ne _ _ _ _ (append_ne_append (by decide))]
    refine readF_none_of_clean fs1 _ _ hclean1 ?_
    rw [hassoc3]; exact isPrefixOf_append_self _ _
  have fr4 : readF A3 (base ++ ["github_repo", "QUESTIONS.md"]) = none := by
    rw [hA3, readF_writeF_ne _ _ _ _ (append_ne_append (by decide))]
    rw [hA2, readF_writeF_ne _ _ _ _ (append_ne_append (by decide))]
    rw [hA1, readF_writeF_ne _ _ _ _ (append_ne_append (by decide))]
    refine readF_none_of_clean fs1 _ _ hclean1 ?_
    rw [hassoc4]; exact isPrefixOf_append_self _ _
  have fr5 : readF A4 (base ++ ["github_repo", "generated_assessment.docx"])
      = none := by
    rw [hA4, readF_writeF_ne _ _ _ _ (append_ne_append (by decide))]
    rw [hA3, readF_writeF_ne _ _ _ _ (append_ne_append (by decide))]
    rw [hA2, readF_writeF_ne _ _ _ _ (append_ne_append (by decide))]
    rw [hA1, readF_writeF_ne _ _ _ _ (append_ne_append (by decide))]
    refine readF_none_of_clean fs1 _ _ hclean1 ?_
    rw [hassoc5]; exact isPrefixOf_append_self _ _
  -- prefix, inequality and drop facts for the five destination paths
  have pre1 : (base ++ ["github_repo"]).isPrefixOf
      (base ++ ["github_repo", "images", "uniform_table.png"]) = true := by
    rw [hassoc1]; exact isPrefixOf_append_self _ _
  have pre2 : (base ++ ["github_repo"]).isPrefixOf
      (base ++ ["github_repo", "images", "rect_package_topview_8.png"]) = true := by
    rw [hassoc2]; exact isPrefixOf_append_self _ _
  have pre3 : (base ++ ["github_repo"]).isPrefixOf
      (base ++ ["github_repo", "README.md"]) = true := by
    rw [hassoc3]; exact isPrefixOf_append_self _ _
  have pre4 : (base ++ ["github_repo"]).isPrefixOf
      (base ++ ["github_repo", "QUESTIONS.md"]) = true := by
    rw [hassoc4]; exact isPrefixOf_append_self _ _
  have pre5 : (base ++ ["github_repo"]).isPrefixOf
      (base ++ ["github_repo", "generated_assessment.docx"]) = true := by
    rw [hassoc5]; exact isPrefixOf_append_self _ _
  have nq1 : ((base ++ ["github_repo", "images", "uniform_table.png"])
      == (base ++ ["github_repo"])) = false := by
    rw [beq_eq_false_iff_ne]; exact append_ne_append (by decide)
  have nq2 : ((base ++ ["github_repo", "images", "rect_package_topview_8.png"])
      == (base ++ ["github_repo"])) = false := by
    rw [beq_eq_false_iff_ne]; exact append_ne_append (by decide)
  have nq3 : ((base ++ ["github_repo", "README.md"])
      == (base ++ ["github_repo"])) = false := by
    rw [beq_eq_false_iff_ne]; exact append_ne_append (by decide)
  have nq4 : ((base ++ ["github_repo", "QUESTIONS.md"])
      == (base ++ ["github_repo"])) = false := by
    rw [beq_eq_false_iff_ne]; exact append_ne_append (by decide)
  have nq5 : ((base ++ ["github_repo", "generated_assessment.docx"])
      == (base ++ ["github_repo"])) = false := by
    rw [beq_eq_false_iff_ne]; exact append_ne_append (by decide)
  have hdrop1 : (base ++ ["github_repo", "images", "uniform_table.png"]).drop
      (base ++ ["github_repo"]).length = ["images", "uniform_table.png"] := by
    rw [hassoc1, List.drop_left]
  have hdrop2 : (base ++ ["github_repo", "images", "rect_package_topview_8.png"]).drop
      (base ++ ["github_repo"]).length = ["images", "rect_package_topview_8.png"] := by
    rw [hassoc2, List.drop_left]
  have hdrop3 : (base ++ ["github_repo", "README.md"]).drop
      (base ++ ["github_repo"]).length = ["README.md"] := by
    rw [hassoc3, List.drop_left]
  have hdrop4 : (base ++ ["github_repo", "QUESTIONS.md"]).drop
      (base ++ ["github_repo"]).length = ["QUESTIONS.md"] := by
    rw [hassoc4, List.drop_left]
  have hdrop5 : (base ++ ["github_repo", "generated_assessment.docx"]).drop
      (base ++ ["github_repo"]).length = ["generated_assessment.docx"] := by
    rw [hassoc5, List.drop_left]
  -- the archive entry list
  have hE5 : zipEntriesF A5 (base ++ ["github_repo"])
      = [(["generated_assessment.docx"], dd),
         (["QUESTIONS.md"], FData.bytes questions_md),
         (["README.md"], FData.bytes readme_text),
         (["images", "rect_package_topview_8.png"], d2),
         (["images", "uniform_table.png"], d1)] := by
    rw [hA5, zipEntriesF_writeF_fresh _ _ _ _ pre5 nq5 fr5]
    rw [hA4, zipEntriesF_writeF_fresh _ _ _ _ pre4 nq4 fr4]
    rw [hA3, zipEntriesF_writeF_fresh _ _ _ _ pre3 nq3 fr3]
    rw [hA2, zipEntriesF_writeF_fresh _ _ _ _ pre2 nq2 fr2]
    rw [hA1, zipEntriesF_writeF_fresh _ _ _ _ pre1 nq1 fr1]
    rw [zipEntriesF_of_clean fs1 _ hclean1]
    rw [hdrop5, hdrop4, hdrop3, hdrop2, hdrop1]
  have hE7 : zipEntriesF
      (if fileEx A5 (base ++ ["github_repo.zip"]) = true
        then unlinkF A5 (base ++ ["github_repo.zip"]) else A5)
      (base ++ ["github_repo"])
      = zipEntriesF A5 (base ++ ["github_repo"]) := by
    by_cases hex : fileEx A5 (base ++ ["github_repo.zip"]) = true
    · rw [if_pos hex]; exact zipEntriesF_unlinkF_out A5 _ _ pfz
    · rw [if_neg hex]
  have hread7 : ∀ p' : FPath, p' ≠ base ++ ["github_repo.zip"] →
      readF (if fileEx A5 (base ++ ["github_repo.zip"]) = true
        then unlinkF A5 (base ++ ["github_repo.zip"]) else A5) p'
      = readF A5 p' := by
    intro p' hp'
    by_cases hex : fileEx A5 (base ++ ["github_repo.zip"]) = true
    · rw [if_pos hex]; exact readF_unlinkF_ne _ _ _ hp'
    · rw [if_neg hex]
  -- reduce the run itself
  have hfn1 : fname (main_img1 base) = "uniform_table.png" := by
    simp only [main_img1]; exact fname_append base _
  have hfn2 : fname (main_img2 base) = "rect_package_topview_8.png" := by
    simp only [main_img2]; exact fname_append base _
  have hfnd : fname (main_docx base) = "generated_assessment.docx" := by
    simp only [main_docx]; exact fname_append base _
  have c1 : copyF fs1 (main_img1 base)
      (base ++ ["github_repo", "images", "uniform_table.png"]) = some A1 := by
    rw [copyF, hr1]; rfl
  have c2 : copyF A1 (main_img2 base)
      (base ++ ["github_repo", "images", "rect_package_topview_8.png"]) = some A2 := by
    rw [copyF, hr2']; rfl
  have c5 : copyF A4 (main_docx base)
      (base ++ ["github_repo", "generated_assessment.docx"]) = some A5 := by
    rw [copyF, hrd']; rfl
  have hq6 : ∀ q : FPath,
      readF (writeF
        (if fileEx A5 (base ++ ["github_repo.zip"]) = true
          then unlinkF A5 (base ++ ["github_repo.zip"]) else A5)
        (base ++ ["github_repo.zip"])
        (FData.zipArchive (zipEntriesF
          (if fileEx A5 (base ++ ["github_repo.zip"]) = true
            then unlinkF A5 (base ++ ["github_repo.zip"]) else A5)
          (base ++ ["github_repo"]))))
        ((base ++ ["github_repo"]) ++ q)
      = ((zipEntriesF
          (if fileEx A5 (base ++ ["github_repo.zip"]) = true
            then unlinkF A5 (base ++ ["github_repo.zip"]) else A5)
          (base ++ ["github_repo"])).find? fun e => e.1 == q).map
          fun e => e.2 := by
    intro q
    rw [hE7, hE5]
    have hqz : (base ++ ["github_repo"]) ++ q ≠ base ++ ["github_repo.zip"] := by
      intro hc
      have hc2 : base ++ ("github_repo" :: q) = base ++ ["github_repo.zip"] := by
        simpa using hc
      have h3 := List.append_cancel_left hc2
      injection h3 with hh _
      exact absurd hh (by decide)
    rw [readF_writeF_ne _ _ _ _ hqz, hread7 _ hqz]
    by_cases cd : q = ["generated_assessment.docx"]
    · subst cd
      rw [show (base ++ ["github_repo"]) ++ ["generated_assessment.docx"]
          = base ++ ["github_repo", "generated_assessment.docx"] from by simp]
      rw [hA5, readF_writeF_self]
      rfl
    by_cases cq : q = ["QUESTIONS.md"]
    · subst cq
      rw [show (base ++ ["github_repo"]) ++ ["QUESTIONS.md"]
          = base ++ ["github_repo", "QUESTIONS.md"] from by simp]
      rw [hA5, readF_writeF_ne _ _ _ _ (append_ne_append (by decide))]
      rw [hA4, readF_writeF_self]
      rfl
    by_cases cr : q = ["README.md"]
    · subst cr
      rw [show (base ++ ["github_repo"]) ++ ["README.md"]
          = base ++ ["github_repo", "README.md"] from by simp]
      rw [hA5, readF_writeF_ne _ _ _ _ (append_ne_append (by decide))]
      rw [hA4, readF_writeF_ne _ _ _ _ (append_ne_append (by decide))]
      rw [hA3, readF_writeF_self]
      rfl
    by_cases ci2 : q = ["images", "rect_package_topview_8.png"]
    · subst ci2
      rw [show (base ++ ["github_repo"]) ++ ["images", "rect_package_topview_8.png"]
          = base ++ ["github_repo", "images", "rect_package_topview_8.png"] from by simp]
      rw [hA5, readF_writeF_ne _ _ _ _ (append_ne_append (by decide))]
      rw [hA4, readF_writeF_ne _ _ _ _ (append_ne_append (by decide))]
      rw [hA3, readF_writeF_ne _ _ _ _ (append_ne_append (by decide))]
      rw [hA2, readF_writeF_self]
      rfl
    by_cases ci1 : q = ["images", "uniform_table.png"]
    · subst ci1
      rw [show (base ++ ["github_repo"]) ++ ["images", "uniform_table.png"]
          = base ++ ["github_repo", "images", "uniform_table.png"] from by simp]
      rw [hA5, readF_writeF_ne _ _ _ _ (append_ne_append (by decide))]
      rw [hA4, readF_writeF_ne _ _ _ _ (append_ne_append (by decide))]
      rw [hA3, readF_writeF_ne _ _ _ _ (append_ne_append (by decide))]
      rw [hA2, readF_writeF_ne _ _ _ _ (append_ne_append (by decide))]
      rw [hA1, readF_writeF_self]
      rfl
    have hne : ∀ t : FPath, q ≠ t →
        (base ++ ["github_repo"]) ++ q ≠ base ++ ("github_repo" :: t) := by
      intro t ht hc
      have hc2 : base ++ ("github_repo" :: q) = base ++ ("github_repo" :: t) := by
        simpa using hc
      have h3 := List.append_cancel_left hc2
      injection h3 with _ ht2
      exact ht ht2
    rw [hA5, readF_writeF_ne _ _ _ _ (hne _ cd)]
    rw [hA4, readF_writeF_ne _ _ _ _ (hne _ cq)]
    rw [hA3, readF_writeF_ne _ _ _ _ (hne _ cr)]
    rw [hA2, readF_writeF_ne _ _ _ _ (hne _ ci2)]
    rw [hA1, readF_writeF_ne _ _ _ _ (hne _ ci1)]
    rw [readF_none_of_clean fs1 _ _ hclean1 (isPrefixOf_append_self _ _)]
    have hfind : List.find? (fun e => e.1 == q)
        [((["generated_assessment.docx"] : FPath), dd),
         (["QUESTIONS.md"], FData.bytes questions_md),
         (["README.md"], FData.bytes readme_text),
         (["images", "rect_package_topview_8.png"], d2),
         (["images", "uniform_table.png"], d1)] = none := by
      rw [List.find?_eq_none]
      intro e he
      simp only [List.mem_cons, List.not_mem_nil, or_false] at he
      rcases he with rfl | rfl | rfl | rfl | rfl
      · exact fun hc => cd (beq_iff_eq.mp hc).symm
      · exact fun hc => cq (beq_iff_eq.mp hc).symm
      · exact fun hc => cr (beq_iff_eq.mp hc).symm
      · exact fun hc => ci2 (beq_iff_eq.mp hc).symm
      · exact fun hc => ci1 (beq_iff_eq.mp hc).symm
    rw [hfind]
    rfl
  simp only [make_github_folder, hfs1eq, hfn1, hfn2, hfnd, List.append_assoc,
    List.cons_append, List.nil_append, c1, Option.some_bind, c2, ← hA3, ← hA4,
    c5, Option.map_some]
  exact ⟨_, rfl, rfl, rfl, hE7.trans hE5, readF_writeF_self _ _ _, hq6⟩

/-- The five files of the package directory, by path relative to its root. -/
def repo_rel_names : List FPath :=
  [["generated_assessment.docx"], ["QUESTIONS.md"], ["README.md"],
   ["images", "rect_package_topview_8.png"], ["images", "uniform_table.png"]]

/-- C6: the archive entry-name list is exactly the package directory file
set by relative path — a relative path is readable beneath the package
directory afterward if and only if it is an entry name — and no entry name
is empty, none carries the directory name "github_repo" as its leading
component (and hence none repeats the absolute base prefix). -/
theorem c6_archive_entry_names (fs0 : FState) (base : FPath) (d1 d2 dd : FData)
    (h1 : readF fs0 (main_img1 base) = some d1)
    (h2 : readF fs0 (main_img2 base) = some d2)
    (hd : readF fs0 (main_docx base) = some dd) :
    ∃ r : MGFResult,
      make_github_folder fs0 base (main_img1 base) (main_img2 base) (main_docx base)
        = some r ∧
      (r.entries.map fun e => e.1) = repo_rel_names ∧
      (∀ q : FPath, q ∈ (r.entries.map fun e => e.1)
        ↔ (readF r.fs (r.repo_dir ++ q)).isSome = true) ∧
      (r.entries.map fun e => e.1).all
        (fun q => !(q.isEmpty) && !(q.headD "" == "github_repo")) = true := by
  obtain ⟨r, hr, hrdir, hrz, hE, hzip, hq⟩ := mgf_run fs0 base d1 d2 dd h1 h2 hd
  have hname : (r.entries.map fun e => e.1) = repo_rel_names := by
    rw [hE]
    rfl
  refine ⟨r, hr, hname, ?_, ?_⟩
  · intro q
    rw [hq q]
    have hiso : ((r.entries.find? fun e => e.1 == q).map fun e => e.2).isSome
        = (r.entries.find? fun e => e.1 == q).isSome := by
      cases r.entries.find? fun e => e.1 == q <;> rfl
    rw [hiso]
    constructor
    · intro hmem
      rcases List.mem_map.mp hmem with ⟨e, heme, hq1⟩
      cases hfind : (r.entries.find? fun e => e.1 == q) with
      | some e2 => rfl
      | none =>
        rw [List.find?_eq_none] at hfind
        exact absurd (beq_iff_eq.mpr hq1) (hfind e heme)
    · intro hsome
      cases hfind : (r.entries.find? fun e => e.1 == q) with
      | none => rw [hfind] at hsome; simp at hsome
      | some e =>
        have hpe := List.find?_some hfind
        have hme := List.mem_of_find?_eq_some hfind
        exact (beq_iff_eq.mp hpe) ▸ List.mem_map_of_mem _ hme
  · rw [hname]
    decide

/-- C7: after a run over an arbitrary prior filesystem, the package
directory holds exactly the five freshly generated files (the two image
copies, README, questions markdown and the document copy), the archive at
the archive path is the freshly created one, and any path that was beneath
the package directory beforehand but is not one of the five is gone. -/
theorem c7_clean_slate (fs0 : FState) (base : FPath) (d1 d2 dd : FData)
    (h1 : readF fs0 (main_img1 base) = some d1)
    (h2 : readF fs0 (main_img2 base) = some d2)
    (hd : readF fs0 (main_docx base) = some dd) :
    ∃ r : MGFResult,
      make_github_folder fs0 base (main_img1 base) (main_img2 base) (main_docx base)
        = some r ∧
      readF r.fs (r.repo_dir ++ ["QUESTIONS.md"]) = some (FData.bytes questions_md) ∧
      readF r.fs (r.repo_dir ++ ["README.md"]) = some (FData.bytes readme_text) ∧
      readF r.fs (r.repo_dir ++ ["images", "uniform_table.png"]) = some d1 ∧
      readF r.fs (r.repo_dir ++ ["images", "rect_package_topview_8.png"]) = some d2 ∧
      readF r.fs (r.repo_dir ++ ["generated_assessment.docx"]) = some dd ∧
      readF r.fs r.zip_path = some (FData.zipArchive r.entries) ∧
      (∀ q : FPath, q ∉ repo_rel_names → readF r.fs (r.repo_dir ++ q) = none) := by
  obtain ⟨r, hr, hrdir, hrz, hE, hzip, hq⟩ := mgf_run fs0 base d1 d2 dd h1 h2 hd
  refine ⟨r, hr, ?_, ?_, ?_, ?_, ?_, hzip, ?_⟩
  · rw [hq _, hE]; rfl
  · rw [hq _, hE]; rfl
  · rw [hq _, hE]; rfl
  · rw [hq _, hE]; rfl
  · rw [hq _, hE]; rfl
  · intro q hnq
    rw [hq q, hE]
    have hfind : List.find? (fun e => e.1 == q)
        [((["generated_assessment.docx"] : FPath), dd),
         (["QUESTIONS.md"], FData.bytes questions_md),
         (["README.md"], FData.bytes readme_text),
         (["images", "rect_package_topview_8.png"], d2),
         (["images", "uniform_table.png"], d1)] = none := by
      rw [List.find?_eq_none]
      intro e he
      simp only [List.mem_cons, List.not_mem_nil, or_false] at he
      rcases he with rfl | rfl | rfl | rfl | rfl
      · intro hc
        have hc2 : (["generated_assessment.docx"] : FPath) = q := beq_iff_eq.mp hc
        exact hnq (hc2 ▸
          (show (["generated_assessment.docx"] : FPath) ∈ repo_rel_names by decide))
      · intro hc
        have hc2 : (["QUESTIONS.md"] : FPath) = q := beq_iff_eq.mp hc
        exact hnq (hc2 ▸
          (show (["QUESTIONS.md"] : FPath) ∈ repo_rel_names by decide))
      · intro hc
        have hc2 : (["README.md"] : FPath) = q := beq_iff_eq.mp hc
        exact hnq (hc2 ▸
          (show (["README.md"] : FPath) ∈ repo_rel_names by decide))
      · intro hc
        have hc2 : (["images", "rect_package_topview_8.png"] : FPath) = q :=
          beq_iff_eq.mp hc
        exact hnq (hc2 ▸
          (show (["images", "rect_package_topview_8.png"] : FPath) ∈ repo_rel_names
            by decide))
      · intro hc
        have hc2 : (["images", "uniform_table.png"] : FPath) = q :=
          beq_iff_eq.mp hc
        exact hnq (hc2 ▸
          (show (["images", "uniform_table.png"] : FPath) ∈ repo_rel_names
            by decide))
    rw [hfind]
    rfl

/-- C9: two runs of the package assembler over the same output directory —
whatever the prior filesystem states and whatever bytes the renderers and
composer produced each time — yield the same QUESTIONS.md content, the same
README content (both the fixed literals), and archives with the same entry
names. -/
theorem c9_two_runs_agree (fs0 fs0' : FState) (base : FPath)
    (d1 d2 dd d1' d2' dd' : FData)
    (h1 : readF fs0 (main_img1 base) = some d1)
    (h2 : readF fs0 (main_img2 base) = some d2)
    (hd : readF fs0 (main_docx base) = some dd)
    (h1' : readF fs0' (main_img1 base) = some d1')
    (h2' : readF fs0' (main_img2 base) = some d2')
    (hd' : readF fs0' (main_docx base) = some dd') :
    ∃ r r' : MGFResult,
      make_github_folder fs0 base (main_img1 base) (main_img2 base) (main_docx base)
        = some r ∧
      make_github_folder fs0' base (main_img1 base) (main_img2 base) (main_docx base)
        = some r' ∧
      readF r.fs (r.repo_dir ++ ["QUESTIONS.md"])
        = readF r'.fs (r'.repo_dir ++ ["QUESTIONS.md"]) ∧
      readF r.fs (r.repo_dir ++ ["QUESTIONS.md"]) = some (FData.bytes questions_md) ∧
      readF r.fs (r.repo_dir ++ ["README.md"])
        = readF r'.fs (r'.repo_dir ++ ["README.md"]) ∧
      readF r.fs (r.repo_dir ++ ["README.md"]) = some (FData.bytes readme_text) ∧
      (r.entries.map fun e => e.1) = (r'.entries.map fun e => e.1) := by
  obtain ⟨r, hr, hrdir, hrz, hE, hzip, hq⟩ := mgf_run fs0 base d1 d2 dd h1 h2 hd
  obtain ⟨r', hr', hrdir', hrz', hE', hzip', hq'⟩ :=
    mgf_run fs0' base d1' d2' dd' h1' h2' hd'
  refine ⟨r, r', hr, hr', ?_, ?_, ?_, ?_, ?_⟩
  · rw [hq _, hE, hq' _, hE']; rfl
  · rw [hq _, hE]; rfl
  · rw [hq _, hE, hq' _, hE']; rfl
  · rw [hq _, hE]; rfl
  · rw [hE, hE']; rfl

/-- A concrete prior filesystem holding the two images and the document. -/
def sample_fs : FState :=
  ⟨[(["out", "uniform_table.png"], FData.bytes "img1"),
    (["out", "rect_package_topview_8.png"], FData.bytes "img2"),
    (["out", "generated_assessment.docx"], FData.bytes "docx")]⟩

/-- A second concrete prior filesystem with different image bytes and a
stale extra file inside the package directory. -/
def sample_fs2 : FState :=
  ⟨[(["out", "uniform_table.png"], FData.bytes "other1"),
    (["out", "rect_package_topview_8.png"], FData.bytes "other2"),
    (["out", "generated_assessment.docx"], FData.bytes "other3"),
    (["out", "github_repo", "stale.txt"], FData.bytes "stale"),
    (["out", "github_repo.zip"], FData.bytes "oldzip")]⟩

/-- Witness for `c6_archive_entry_names` at a concrete filesystem. -/
theorem c6_archive_entry_names_witness :
    ∃ r : MGFResult,
      make_github_folder sample_fs ["out"] (main_img1 ["out"]) (main_img2 ["out"])
        (main_docx ["out"]) = some r ∧
      (r.entries.map fun e => e.1) = repo_rel_names := by
  obtain ⟨r, hr, hname, _, _⟩ := c6_archive_entry_names sample_fs ["out"]
    (FData.bytes "img1") (FData.bytes "img2") (FData.bytes "docx") rfl rfl rfl
  exact ⟨r, hr, hname⟩

/-- Witness for `c7_clean_slate` at a concrete filesystem that contains a
stale extra file in the old package directory and an old archive. -/
theorem c7_clean_slate_witness :
    ∃ r : MGFResult,
      make_github_folder sample_fs2 ["out"] (main_img1 ["out"]) (main_img2 ["out"])
        (main_docx ["out"]) = some r ∧
      readF r.fs (r.repo_dir ++ ["stale.txt"]) = none := by
  obtain ⟨r, hr, _, _, _, _, _, _, hgone⟩ := c7_clean_slate sample_fs2 ["out"]
    (FData.bytes "other1") (FData.bytes "other2") (FData.bytes "other3") rfl rfl rfl
  exact ⟨r, hr, hgone ["stale.txt"] (by decide)⟩

/-- Witness for `c9_two_runs_agree` at two concrete filesystems with
different image and document bytes. -/
theorem c9_two_runs_agree_witness :
    ∃ r r' : MGFResult,
      make_github_folder sample_fs ["out"] (main_img1 ["out"]) (main_img2 ["out"])
        (main_docx ["out"]) = some r ∧
      make_github_folder sample_fs2 ["out"] (main_img1 ["out"]) (main_img2 ["out"])
        (main_docx ["out"]) = some r' ∧
      readF r.fs (r.repo_dir ++ ["QUESTIONS.md"])
        = readF r'.fs (r'.repo_dir ++ ["QUESTIONS.md"]) ∧
      (r.entries.map fun e => e.1) = (r'.entries.map fun e => e.1) := by
  obtain ⟨r, r', hr, hr', hmd, _, _, _, hnames⟩ := c9_two_runs_agree sample_fs
    sample_fs2 ["out"] (FData.bytes "img1") (FData.bytes "img2") (FData.bytes "docx")
    (FData.bytes "other1") (FData.bytes "other2") (FData.bytes "other3")
    rfl rfl rfl rfl rfl rfl
  exact ⟨r, r', hr, hr', hmd, hnames⟩

/-! ## Publisher model (`git_init_and_push`, lines 209-230)

The repository is modelled by the state the git commands act on; each
command either succeeds with the next state or fails, as the external git
tool documents. A run is modelled by the trace of commands attempted, the
final repository state, and the failing command, if any (the
`CalledProcessError` that `check=True` raises and the program re-raises). -/

structure GitState where
  hasGit : Bool
  branch : Option String
  staged : Bool
  committed : Bool
  remotes : List String
  pushed : Bool
deriving DecidableEq, Repr

inductive GitCmd where
  | init
  | checkout (b : String)
  | add
  | commit
  | remoteList
  | remoteRemove (n : String)
  | remoteAdd (n : String) (url : String)
  | push (b : String)
deriving DecidableEq, Repr

/-- External outcomes the repository state does not determine: whether
`git commit` succeeds (it fails e.g. with nothing to commit), whether the
`git remote` listing probe exits 0, and whether `git push` succeeds
(network, authentication, non-fast-forward). -/
structure GitEnv where
  commitOk : Bool
  remoteListOk : Bool
  pushOk : Bool

/-- Model of the external git tool on one command, per its documented
behavior: `init`, `checkout -B` and `add .` succeed in this setting;
`commit` and `push` succeed as the environment dictates; `remote remove
NAME` fails when no remote NAME exists and removes it otherwise;
`remote add NAME url` fails when NAME already exists. -/
def runGitCmd (env : GitEnv) (s : GitState) : GitCmd → Option GitState
  | GitCmd.init => some { s with hasGit := true }
  | GitCmd.checkout b => some { s with branch := some b }
  | GitCmd.add => some { s with staged := true }
  | GitCmd.commit =>
      if env.commitOk then some { s with committed := true } else none
  | GitCmd.remoteList => some s
  | GitCmd.remoteRemove n =>
      if n ∈ s.remotes then some { s with remotes := s.remotes.erase n } else none
  | GitCmd.remoteAdd n _ =>
      if n ∈ s.remotes then none else some { s with remotes := s.remotes ++ [n] }
  | GitCmd.push _ =>
      if env.pushOk then some { s with pushed := true } else none

/-- One `run(cmd)` call (source lines 215-217, `subprocess.run` with
`check=True`): if a previous step already failed nothing more runs;
otherwise the command is attempted, appended to the trace, and its failure
is recorded and aborts the rest. A failing git command leaves the
repository state as it was. -/
def gitStep (env : GitEnv) (c : GitCmd) :
    List GitCmd × GitState × Option GitCmd → List GitCmd × GitState × Option GitCmd
  | (tr, s, some e) => (tr, s, some e)
  | (tr, s, none) =>
      match runGitCmd env s c with
      | some s2 => (tr ++ [c], s2, none)
      | none => (tr ++ [c], s, some c)

/-- Embedding of `git_init_and_push` (source lines 209-230): init if no
`.git` exists, `checkout -B branch`, `add .`, `commit`, then line 225 —
`run(["git","remote","remove","origin"]) if
subprocess.run(["git","remote"], capture_output=True).returncode == 0 else
None`; the listing probe itself is not checked and never aborts — then
`remote add origin remote_url` and `push -u origin branch`. -/
def git_init_and_push (env : GitEnv) (s0 : GitState) (remote_url branch : String) :
    List GitCmd × GitState × Option GitCmd :=
  let st0 : List GitCmd × GitState × Option GitCmd := ([], s0, none)
  let st1 := if s0.hasGit then st0 else gitStep env GitCmd.init st0
  let st2 := gitStep env (GitCmd.checkout branch) st1
  let st3 := gitStep env GitCmd.add st2
  let st4 := gitStep env GitCmd.commit st3
  let st5 :=
    match st4 with
    | (tr, s, some e) => (tr, s, some e)
    | (tr, s, none) =>
        if env.remoteListOk
        then gitStep env (GitCmd.remoteRemove "origin")
          (tr ++ [GitCmd.remoteList], s, none)
        else (tr ++ [GitCmd.remoteList], s, none)
  let st6 := gitStep env (GitCmd.remoteAdd "origin" remote_url) st5
  gitStep env (GitCmd.push branch) st6

/-- The repository state of a freshly assembled package directory: no
repository yet, hence no remote named "origin". -/
def fresh_repo_state : GitState :=
  { hasGit := false, branch := none, staged := false, committed := false,
    remotes := [], pushed := false }

/-- An environment in which every external outcome is a success. -/
def all_ok_env : GitEnv :=
  { commitOk := true, remoteListOk := true, pushOk := true }

/-- C4 evaluated at the failing input: on a fresh package directory — no
repository and no remote named "origin" — with every external command
succeeding, the remote list probe exits 0, so the code unconditionally runs
`git remote remove origin`, which fails because no such remote exists; the
run aborts there with the commit retained, and the remote-add and push
steps are never reached. -/
theorem c4_remote_remove_aborts_on_fresh_repo :
    (git_init_and_push all_ok_env fresh_repo_state
        "https://example.com/repo.git" "main").2.2
      = some (GitCmd.remoteRemove "origin") ∧
    GitCmd.remoteAdd "origin" "https://example.com/repo.git"
      ∉ (git_init_and_push all_ok_env fresh_repo_state
          "https://example.com/repo.git" "main").1 ∧
    GitCmd.push "main"
      ∉ (git_init_and_push all_ok_env fresh_repo_state
          "https://example.com/repo.git" "main").1 ∧
    (git_init_and_push all_ok_env fresh_repo_state
        "https://example.com/repo.git" "main").2.1.committed = true := by
  refine ⟨rfl, by decide, by decide, rfl⟩

/-- The position of a command in the publisher's fixed linear order. -/
def cmdIdx : GitCmd → Nat
  | GitCmd.init => 0
  | GitCmd.checkout _ => 1
  | GitCmd.add => 2
  | GitCmd.commit => 3
  | GitCmd.remoteList => 4
  | GitCmd.remoteRemove _ => 5
  | GitCmd.remoteAdd _ _ => 6
  | GitCmd.push _ => 7

/-- Is a list of naturals strictly ascending? -/
def strictAsc : List Nat → Bool
  | [] => true
  | [_] => true
  | a :: b :: t => decide (a < b) && strictAsc (b :: t)

/-- C8: every publisher run attempts its commands in the strict linear
order init → checkout → add → commit → remote probe → remote remove →
remote add → push (each at most once, some conditionally skipped, so the
attempted trace is strictly ascending in that order); init is attempted
exactly when no repository exists; when a step fails it is the last command
attempted — nothing afterward runs and the failing command is surfaced;
when nothing fails the branch was pushed and push was the final command;
and a push failure leaves the repository committed on the requested branch
(no rollback). -/
theorem c8_publisher_linear (env : GitEnv) (s0 : GitState)
    (remote_url branch : String) :
    strictAsc ((git_init_and_push env s0 remote_url branch).1.map cmdIdx) = true ∧
    (GitCmd.init ∈ (git_init_and_push env s0 remote_url branch).1
      ↔ s0.hasGit = false) ∧
    (∀ c : GitCmd, (git_init_and_push env s0 remote_url branch).2.2 = some c →
      (git_init_and_push env s0 remote_url branch).1.getLast? = some c) ∧
    ((git_init_and_push env s0 remote_url branch).2.2 = none →
      (git_init_and_push env s0 remote_url branch).2.1.pushed = true ∧
      (git_init_and_push env s0 remote_url branch).1.getLast?
        = some (GitCmd.push branch)) ∧
    ((git_init_and_push env s0 remote_url branch).2.2 = some (GitCmd.push branch) →
      (git_init_and_push env s0 remote_url branch).2.1.committed = true ∧
      (git_init_and_push env s0 remote_url branch).2.1.branch = some branch) := by
  obtain ⟨ec, el, ep⟩ := env
  obtain ⟨hg0, br0, stg0, cm0, rem0, pu0⟩ := s0
  cases hg0 <;> cases ec <;> cases el <;> cases ep <;>
    by_cases ho : "origin" ∈ rem0 <;>
    by_cases ho2 : "origin" ∈ rem0.erase "origin" <;>
    simp [git_init_and_push, gitStep, runGitCmd, ho, ho2, strictAsc, cmdIdx]

/-- An environment in which only the push fails. -/
def failing_push_env : GitEnv :=
  { commitOk := true, remoteListOk := true, pushOk := false }

/-- A repository that already exists and already has an "origin" remote. -/
def origin_repo_state : GitState :=
  { hasGit := true, branch := none, staged := false, committed := false,
    remotes := ["origin"], pushed := false }

/-- Witness for `c8_publisher_linear`: with a failing push on an existing
repository, the failing command is the last one attempted and the commit
made before the failed push remains committed. -/
theorem c8_publisher_linear_witness :
    (git_init_and_push failing_push_env origin_repo_state
        "https://example.com/repo.git" "main").1.getLast?
      = some (GitCmd.push "main") ∧
    (git_init_and_push failing_push_env origin_repo_state
        "https://example.com/repo.git" "main").2.1.committed = true :=
  ⟨(c8_publisher_linear failing_push_env origin_repo_state
      "https://example.com/repo.git" "main").2.2.1 (GitCmd.push "main") rfl,
   ((c8_publisher_linear failing_push_env origin_repo_state
      "https://example.com/repo.git" "main").2.2.2.2 rfl).1⟩
